import Mathlib

/-!
Shallow embedding of `api/index.py` (PixV3): a FastAPI proxy in front of the
Mercado Pago PIX API and a key-value status store.

Modelling conventions:
* Python/JSON values are `PyVal`; Python dicts are association lists with
  string keys (the only keys this program ever uses).
* A byte-string value is represented by the text it decodes to (`PyVal.bytes`),
  since the program only ever decodes stored bytes with UTF-8.
* The float `amount` is carried as an uninterpreted `PyVal`: the handler applies
  `float(...)` (the identity on a float-typed pydantic field) and never computes
  with it.
* The external SDK calls `sdk.payment().create(...)` and `sdk.payment().get(id)`
  are oracle parameters returning `Except String PyVal`; an `Except.error`
  models a raised exception carrying `str(e)`.
* `kv.set` may raise; a call-site boolean `kvSetOk` says whether the write is
  accepted.  (In `create_payment` the source retries the identical call once
  inside a nested `try`, so a single boolean captures both attempts.)
* A handler result `Except.error msg` models an exception that escapes the
  handler (the framework then produces a 500); `Except.ok v` models an HTTP 200
  JSON response `v`.  `create_payment` and `get_payment_status` instead return
  `Except HTTPException PyVal`, since every exception in their bodies is caught
  and re-raised as an `HTTPException` with `str(e)` as detail.
-/

inductive PyVal where
  | none
  | bool (b : Bool)
  | int (n : Int)
  | str (s : String)
  | bytes (s : String)
  | list (xs : List PyVal)
  | dict (fields : List (String × PyVal))
deriving Repr

/-- The key-value status store: a flat map from payment id to stored value. -/
abbrev Store := List (String × PyVal)

/-- First-match association-list lookup (Python dict keys are unique). -/
def lookupStr : List (String × PyVal) → String → Option PyVal
  | [], _ => Option.none
  | (k, v) :: rest, key => if k = key then some v else lookupStr rest key

/-- `kv.set key v` / `dict.__setitem__`: overwrite in place or append. -/
def kvSet : Store → String → PyVal → Store
  | [], key, v => [(key, v)]
  | (k, w) :: rest, key, v =>
      if k = key then (key, v) :: rest else (k, w) :: kvSet rest key v

mutual

/-- Python `repr` on the embedded values (containers as in CPython). -/
def pyRepr : PyVal → String
  | PyVal.none => "None"
  | PyVal.bool true => "True"
  | PyVal.bool false => "False"
  | PyVal.int n => toString n
  | PyVal.str s => "\x27" ++ s ++ "\x27"
  | PyVal.bytes s => "b\x27" ++ s ++ "\x27"
  | PyVal.list xs => "[" ++ pyReprList xs ++ "]"
  | PyVal.dict fs => "\x7b" ++ pyReprFields fs ++ "\x7d"

def pyReprList : List PyVal → String
  | [] => ""
  | [x] => pyRepr x
  | x :: y :: rest => pyRepr x ++ ", " ++ pyReprList (y :: rest)

def pyReprFields : List (String × PyVal) → String
  | [] => ""
  | [(k, v)] => "\x27" ++ k ++ "\x27: " ++ pyRepr v
  | (k, v) :: p :: rest => "\x27" ++ k ++ "\x27: " ++ pyRepr v ++ ", " ++ pyReprFields (p :: rest)

end

/-- Python `str(...)`: identity on strings, `repr` otherwise. -/
def pyStr : PyVal → String
  | PyVal.str s => s
  | v => pyRepr v

/-- Python truthiness of the embedded values. -/
def pyTruthy : PyVal → Bool
  | PyVal.none => false
  | PyVal.bool b => b
  | PyVal.int n => decide (n ≠ 0)
  | PyVal.str s => decide (s ≠ "")
  | PyVal.bytes s => decide (s ≠ "")
  | PyVal.list xs => !xs.isEmpty
  | PyVal.dict fs => !fs.isEmpty

/-- Truthiness of an `os.getenv` result (`None` or a string). -/
def pyTruthyStrOpt : Option String → Bool
  | some s => decide (s ≠ "")
  | Option.none => false

/-- Python `a or b` on an env-var string (`None` and `""` are falsy). -/
def strOr (a : Option String) (b : String) : String :=
  match a with
  | some s => if s = "" then b else s
  | Option.none => b

/-- Python `x == "lit"` for an arbitrary value `x`: only a `str` can be equal. -/
def pyEqStr : PyVal → String → Bool
  | PyVal.str s, t => s == t
  | _, _ => false

def pyTypeName : PyVal → String
  | PyVal.none => "NoneType"
  | PyVal.bool _ => "bool"
  | PyVal.int _ => "int"
  | PyVal.str _ => "str"
  | PyVal.bytes _ => "bytes"
  | PyVal.list _ => "list"
  | PyVal.dict _ => "dict"

/-- Python `v.get(key, default)`: raises `AttributeError` unless `v` is a dict. -/
def pyGet (v : PyVal) (key : String) (dflt : PyVal) : Except String PyVal :=
  match v with
  | PyVal.dict fields => Except.ok ((lookupStr fields key).getD dflt)
  | _ => Except.error ("AttributeError: " ++ pyTypeName v ++ " object has no attribute get")

/-- The process environment and import outcomes read at module load. -/
structure Env where
  mercadopagoAvailable : Bool
  mercadopagoImportError : String
  MP_ACCESS_TOKEN : Option String
  MP_NOTIFICATION_URL : Option String
  VERCEL_URL : Option String

/-- `fastapi.HTTPException`: an HTTP status code plus a JSON-able detail. -/
structure HTTPException where
  status_code : Nat
  detail : PyVal

/-- The pydantic request model (`payer_email` has a declared default). -/
structure PaymentRequest where
  amount : PyVal
  description : String
  payer_email : String := "test_user@test.com"

/-- `GET /api/hello`. -/
def hello_world : PyVal :=
  PyVal.dict [("message", PyVal.str "API de Pagamentos PIX está funcionando!")]

/-- The `payment_data` dict built inside `create_payment`, including the
`notification_url` computed from `MP_NOTIFICATION_URL` / `VERCEL_URL`. -/
def buildPaymentData (env : Env) (req : PaymentRequest) : PyVal :=
  PyVal.dict
    [("transaction_amount", req.amount),
     ("payment_method_id", PyVal.str "pix"),
     ("description", PyVal.str req.description),
     ("payer", PyVal.dict [("email", PyVal.str req.payer_email)]),
     ("notification_url", PyVal.str (strOr env.MP_NOTIFICATION_URL
        ("https://" ++ env.VERCEL_URL.getD "<seu-dominio>" ++ "/api/webhook/mercadopago")))]

/-- `POST /api/create_payment`.  `createOracle` stands for
`sdk.payment().create`; `kvSetOk` says whether `kv.set` succeeds.  Every
exception raised in the `try` body is caught and re-raised as a 500
`HTTPException` with `str(e)` as detail, which the error branches encode
directly.  Returns the response (or error) together with the store after the
call. -/
def create_payment (env : Env) (createOracle : PyVal → Except String PyVal)
    (kvSetOk : Bool) (store : Store) (req : PaymentRequest) :
    Except HTTPException PyVal × Store :=
  if env.mercadopagoAvailable = false then
    (Except.error ⟨500, PyVal.str ("SDK mercadopago não disponível: " ++ env.mercadopagoImportError)⟩,
     store)
  else if pyTruthyStrOpt env.MP_ACCESS_TOKEN = false then
    (Except.error ⟨500, PyVal.str "MERCADOPAGO_ACCESS_TOKEN não configurado no ambiente"⟩, store)
  else
    match createOracle (buildPaymentData env req) with
    | Except.error e => (Except.error ⟨500, PyVal.str e⟩, store)
    | Except.ok result =>
      match pyGet result "response" (PyVal.dict []) with
      | Except.error e => (Except.error ⟨500, PyVal.str e⟩, store)
      | Except.ok payment_response =>
        match pyGet payment_response "id" (PyVal.str "") with
        | Except.error e => (Except.error ⟨500, PyVal.str e⟩, store)
        | Except.ok idv =>
          match pyGet payment_response "point_of_interaction" (PyVal.dict []) with
          | Except.error e => (Except.error ⟨500, PyVal.str e⟩, store)
          | Except.ok poi =>
            match pyGet poi "transaction_data" (PyVal.dict []) with
            | Except.error e => (Except.error ⟨500, PyVal.str e⟩, store)
            | Except.ok txi =>
              match pyGet txi "qr_code" PyVal.none with
              | Except.error e => (Except.error ⟨500, PyVal.str e⟩, store)
              | Except.ok qr_code =>
                if pyStr idv = "" ∨ pyTruthy qr_code = false then
                  (Except.error ⟨500, PyVal.dict [("mp_result", result)]⟩, store)
                else
                  (Except.ok (PyVal.dict
                      [("payment_id", PyVal.str (pyStr idv)),
                       ("status", PyVal.str "pending"),
                       ("qr_code_copy_paste", qr_code)]),
                   if kvSetOk then kvSet store (pyStr idv) (PyVal.str "pending") else store)

/-- Decode of a byte-encoded stored value (`status.decode("utf-8")`). -/
def decodeBytes : PyVal → PyVal
  | PyVal.bytes s => PyVal.str s
  | v => v

/-- `GET /api/payment_status/payment_id`.  `kv.get` yields `None` when the key
is absent; bytes are decoded before the `None` check. -/
def get_payment_status (store : Store) (payment_id : String) : Except HTTPException PyVal :=
  match decodeBytes ((lookupStr store payment_id).getD PyVal.none) with
  | PyVal.none => Except.error ⟨404, PyVal.str "Pagamento não encontrado"⟩
  | v => Except.ok (PyVal.dict [("payment_id", PyVal.str payment_id), ("status", v)])

/-- Lines 131-140 of the webhook handler: fetch the authoritative status from
the provider.  `getOracle` stands for `sdk.payment().get`; any exception in the
`try` body (including `.get` on a non-dict) yields `"unknown"`, and when the
SDK or the access token is unavailable no query is attempted. -/
def webhookFetchStatus (env : Env) (getOracle : String → Except String PyVal)
    (payment_id : String) : PyVal :=
  if env.mercadopagoAvailable && pyTruthyStrOpt env.MP_ACCESS_TOKEN then
    match getOracle payment_id with
    | Except.error _ => PyVal.str "unknown"
    | Except.ok mp_resp =>
      match pyGet mp_resp "response" (PyVal.dict []) with
      | Except.error _ => PyVal.str "unknown"
      | Except.ok r =>
        match pyGet r "status" PyVal.none with
        | Except.error _ => PyVal.str "unknown"
        | Except.ok s => s
  else PyVal.str "unknown"

/-- `POST /api/webhook/mercadopago`.  `body` is the outcome of
`await request.json()` (`Except.error` = parse failure with `str(e)`).  An
`Except.error` in the result is an exception that escapes the handler (the
framework then answers 500); `Except.ok` is an HTTP 200 JSON response. -/
def mercadopago_webhook (env : Env) (getOracle : String → Except String PyVal)
    (kvSetOk : Bool) (store : Store) (body : Except String PyVal) :
    Except String PyVal × Store :=
  match body with
  | Except.error e =>
    (Except.ok (PyVal.dict [("status", PyVal.str "invalid_json"), ("detail", PyVal.str e)]), store)
  | Except.ok data =>
    match pyGet data "type" PyVal.none with
    | Except.error e => (Except.error e, store)
    | Except.ok t =>
      if pyEqStr t "payment" then
        match pyGet data "data" (PyVal.dict []) with
        | Except.error e => (Except.error e, store)
        | Except.ok inner =>
          match pyGet inner "id" (PyVal.str "") with
          | Except.error e => (Except.error e, store)
          | Except.ok idv =>
            if pyStr idv = "" then
              (Except.ok (PyVal.dict [("status", PyVal.str "no_id")]), store)
            else
              (Except.ok (PyVal.dict
                  [("status", PyVal.str "ok"),
                   ("payment_id", PyVal.str (pyStr idv)),
                   ("new_status", webhookFetchStatus env getOracle (pyStr idv))]),
               if kvSetOk then
                 kvSet store (pyStr idv) (webhookFetchStatus env getOracle (pyStr idv))
               else store)
      else
        (Except.ok (PyVal.dict [("status", PyVal.str "ignored"),
            ("detail", PyVal.str "unsupported type")]), store)

/-! ## Helper lemmas and concrete fixtures -/

theorem lookupStr_kvSet_self (store : Store) (key : String) (v : PyVal) :
    lookupStr (kvSet store key v) key = some v := by
  induction store with
  | nil => simp [kvSet, lookupStr]
  | cons head rest ih =>
    obtain ⟨k, w⟩ := head
    by_cases hk : k = key <;> simp [kvSet, lookupStr, hk, ih]

/-- Canonical shape of a successful `sdk.payment().create` result, holding a
payment id and a nested `point_of_interaction.transaction_data.qr_code`. -/
def mkCreateResult (idv qr : PyVal) : PyVal :=
  PyVal.dict [("response", PyVal.dict
    [("id", idv),
     ("point_of_interaction",
      PyVal.dict [("transaction_data", PyVal.dict [("qr_code", qr)])])])]

/-- Canonical webhook body `{"type": "payment", "data": {"id": idv}}` plus
extra fields inside `data`. -/
def bodyPayment (idv : PyVal) (extra : List (String × PyVal)) : PyVal :=
  PyVal.dict [("type", PyVal.str "payment"),
              ("data", PyVal.dict (("id", idv) :: extra))]

def envFull : Env := ⟨true, "", some "APP-TOKEN", Option.none, Option.none⟩

def envNoToken : Env := ⟨true, "", Option.none, Option.none, Option.none⟩

def envNoSDK : Env := ⟨false, "No module named mercadopago", some "APP-TOKEN",
  Option.none, Option.none⟩

def reqSample : PaymentRequest := ⟨PyVal.int 10, "pedido", "a@b.c"⟩

def createOracleGood : PyVal → Except String PyVal :=
  fun _ => Except.ok (mkCreateResult (PyVal.int 123) (PyVal.str "qr-data"))

def getOracleApproved : String → Except String PyVal :=
  fun _ => Except.ok (PyVal.dict [("response", PyVal.dict [("status", PyVal.str "approved")])])

def getOracleNoStatus : String → Except String PyVal :=
  fun _ => Except.ok (PyVal.dict [("response", PyVal.dict [])])

/-! ## Claims -/

/-- Claim C3: while the access token env var is absent or empty, every
creation request fails with a 500 whose detail names the missing
configuration (the token, or the SDK when that import failed first), and the
store is returned unchanged. -/
theorem create_payment_no_token (env : Env) (createOracle : PyVal → Except String PyVal)
    (kvSetOk : Bool) (store : Store) (req : PaymentRequest)
    (h : pyTruthyStrOpt env.MP_ACCESS_TOKEN = false) :
    create_payment env createOracle kvSetOk store req =
      (Except.error ⟨500, PyVal.str (if env.mercadopagoAvailable then
          "MERCADOPAGO_ACCESS_TOKEN não configurado no ambiente"
        else "SDK mercadopago não disponível: " ++ env.mercadopagoImportError)⟩, store) := by
  unfold create_payment
  cases hA : env.mercadopagoAvailable <;> simp [hA, h]

/-- Witness for C3 at a concrete environment without a token. -/
theorem create_payment_no_token_witness :
    create_payment envNoToken createOracleGood true [] reqSample =
      (Except.error ⟨500, PyVal.str (if envNoToken.mercadopagoAvailable then
          "MERCADOPAGO_ACCESS_TOKEN não configurado no ambiente"
        else "SDK mercadopago não disponível: " ++ envNoToken.mercadopagoImportError)⟩, []) :=
  create_payment_no_token envNoToken createOracleGood true [] reqSample rfl

/-- Claim C7: a webhook whose JSON object body has `type != "payment"` leaves
the store untouched and answers the `ignored` acknowledgement. -/
theorem mercadopago_webhook_ignored (env : Env) (getOracle : String → Except String PyVal)
    (kvSetOk : Bool) (store : Store) (fs : List (String × PyVal))
    (h : pyEqStr ((lookupStr fs "type").getD PyVal.none) "payment" = false) :
    mercadopago_webhook env getOracle kvSetOk store (Except.ok (PyVal.dict fs)) =
      (Except.ok (PyVal.dict [("status", PyVal.str "ignored"),
          ("detail", PyVal.str "unsupported type")]), store) := by
  unfold mercadopago_webhook
  simp [pyGet, h]

/-- Witness for C7 at a concrete body of another notification type. -/
theorem mercadopago_webhook_ignored_witness :
    mercadopago_webhook envFull getOracleApproved true [("7", PyVal.str "pending")]
        (Except.ok (PyVal.dict [("type", PyVal.str "plan"), ("data", PyVal.dict [("id", PyVal.int 7)])])) =
      (Except.ok (PyVal.dict [("status", PyVal.str "ignored"),
          ("detail", PyVal.str "unsupported type")]), [("7", PyVal.str "pending")]) :=
  mercadopago_webhook_ignored envFull getOracleApproved true [("7", PyVal.str "pending")]
    [("type", PyVal.str "plan"), ("data", PyVal.dict [("id", PyVal.int 7)])] rfl

/-- Claim C10: whenever `create_payment` produces an error response of any
kind, the store component of the result is exactly the input store. -/
theorem create_payment_error_keeps_store (env : Env) (createOracle : PyVal → Except String PyVal)
    (kvSetOk : Bool) (store : Store) (req : PaymentRequest) (e : HTTPException)
    (h : (create_payment env createOracle kvSetOk store req).1 = Except.error e) :
    (create_payment env createOracle kvSetOk store req).2 = store := by
  unfold create_payment at h ⊢
  repeat' split
  all_goals simp_all

/-- Witness for C10 at a concrete failing environment (SDK import failed). -/
theorem create_payment_error_keeps_store_witness :
    (create_payment envNoSDK createOracleGood true [] reqSample).2 = [] :=
  create_payment_error_keeps_store envNoSDK createOracleGood true [] reqSample
    ⟨500, PyVal.str ("SDK mercadopago não disponível: " ++ envNoSDK.mercadopagoImportError)⟩ rfl

/-- Counterexample to claim C6: reachable store state (the webhook writes the
provider status verbatim, which can be `None`) in which an entry for the id is
present, yet the lookup answers 404. -/
theorem get_payment_status_null_entry_404 :
    lookupStr [("42", PyVal.none)] "42" = some PyVal.none ∧
    get_payment_status [("42", PyVal.none)] "42" =
      Except.error ⟨404, PyVal.str "Pagamento não encontrado"⟩ :=
  ⟨rfl, rfl⟩

/-- Claim C6 (amended): `get_payment_status` fails with 404 if and only if the
store has no entry for the id or the entry holds the null value `None`; for
any other entry the returned status is the stored value, decoded from bytes to
text. -/
theorem get_payment_status_cases (store : Store) (pid : String) :
    (get_payment_status store pid = Except.error ⟨404, PyVal.str "Pagamento não encontrado"⟩ ↔
      (lookupStr store pid = Option.none ∨ lookupStr store pid = some PyVal.none)) ∧
    (∀ v, lookupStr store pid = some v → v ≠ PyVal.none →
      get_payment_status store pid =
        Except.ok (PyVal.dict [("payment_id", PyVal.str pid), ("status", decodeBytes v)])) := by
  constructor
  · cases hl : lookupStr store pid with
    | none => simp [get_payment_status, hl, decodeBytes]
    | some v => cases v <;> simp [get_payment_status, hl, decodeBytes]
  · intro v hv hne
    cases v <;> simp_all [get_payment_status, decodeBytes]

/-- Witness for C6 (amended) at a store holding a byte-encoded status. -/
theorem get_payment_status_cases_witness :
    (get_payment_status [("9", PyVal.bytes "approved")] "9" =
        Except.error ⟨404, PyVal.str "Pagamento não encontrado"⟩ ↔
      (lookupStr [("9", PyVal.bytes "approved")] "9" = Option.none ∨
       lookupStr [("9", PyVal.bytes "approved")] "9" = some PyVal.none)) ∧
    get_payment_status [("9", PyVal.bytes "approved")] "9" =
      Except.ok (PyVal.dict [("payment_id", PyVal.str "9"),
        ("status", decodeBytes (PyVal.bytes "approved"))]) :=
  ⟨(get_payment_status_cases [("9", PyVal.bytes "approved")] "9").1,
   (get_payment_status_cases [("9", PyVal.bytes "approved")] "9").2
     (PyVal.bytes "approved") rfl (by simp)⟩

/-- Counterexample to claim C5: with the SDK and token configured, a provider
response that is well-formed but lacks the `status` field makes the webhook
fetch yield the null value `None` — not the sentinel `"unknown"` — and that
null is written to the store and returned as `new_status`. -/
theorem webhook_missing_status_null :
    webhookFetchStatus envFull getOracleNoStatus "77" = PyVal.none ∧
    PyVal.none ≠ PyVal.str "unknown" ∧
    mercadopago_webhook envFull getOracleNoStatus true []
        (Except.ok (bodyPayment (PyVal.int 77) [])) =
      (Except.ok (PyVal.dict [("status", PyVal.str "ok"),
          ("payment_id", PyVal.str "77"), ("new_status", PyVal.none)]),
       [("77", PyVal.none)]) :=
  ⟨rfl, by simp, rfl⟩

/-- Claim C5 (amended): on the webhook path, an unconfigured SDK/token and any
adapter-level exception yield the sentinel `"unknown"`; but when the provider
call succeeds with a dict response, the fetch yields exactly the `status`
field's value, which is `None` (not `"unknown"`) when the field is missing. -/
theorem webhookFetchStatus_cases (env : Env) (getOracle : String → Except String PyVal)
    (pid : String) :
    ((env.mercadopagoAvailable && pyTruthyStrOpt env.MP_ACCESS_TOKEN) = false →
      webhookFetchStatus env getOracle pid = PyVal.str "unknown") ∧
    (∀ e, getOracle pid = Except.error e →
      webhookFetchStatus env getOracle pid = PyVal.str "unknown") ∧
    (∀ rs rf, (env.mercadopagoAvailable && pyTruthyStrOpt env.MP_ACCESS_TOKEN) = true →
      getOracle pid = Except.ok (PyVal.dict rs) →
      (lookupStr rs "response").getD (PyVal.dict []) = PyVal.dict rf →
      webhookFetchStatus env getOracle pid = (lookupStr rf "status").getD PyVal.none) := by
  refine ⟨fun hc => ?_, fun e he => ?_, fun rs rf hc ho hresp => ?_⟩
  · simp [webhookFetchStatus, hc]
  · cases hc : (env.mercadopagoAvailable && pyTruthyStrOpt env.MP_ACCESS_TOKEN) <;>
      simp [webhookFetchStatus, hc, he]
  · simp [webhookFetchStatus, hc, ho, pyGet, hresp]

/-- Witness for C5 (amended), exercising all three cases concretely. -/
theorem webhookFetchStatus_cases_witness :
    webhookFetchStatus envNoToken getOracleApproved "5" = PyVal.str "unknown" ∧
    webhookFetchStatus envFull (fun _ => Except.error "ConnectionError") "5" = PyVal.str "unknown" ∧
    webhookFetchStatus envFull getOracleNoStatus "5" =
      (lookupStr [] "status").getD PyVal.none :=
  ⟨(webhookFetchStatus_cases envNoToken getOracleApproved "5").1 rfl,
   (webhookFetchStatus_cases envFull (fun _ => Except.error "ConnectionError") "5").2.1
      "ConnectionError" rfl,
   (webhookFetchStatus_cases envFull getOracleNoStatus "5").2.2 [("response", PyVal.dict [])] []
      rfl rfl rfl⟩

/-- Claim C1: with the SDK and token configured, a provider creation result
whose response carries a non-empty id and a nested
`point_of_interaction.transaction_data.qr_code`, and an accepted store write,
`create_payment` answers `{payment_id, status: "pending", qr_code_copy_paste}`
with that non-empty id, and a subsequent `get_payment_status` for that id
answers `"pending"`. -/
theorem create_payment_roundtrip (env : Env) (createOracle : PyVal → Except String PyVal)
    (store : Store) (req : PaymentRequest)
    (rs pr poi txi : List (String × PyVal)) (idv qr : PyVal)
    (hA : env.mercadopagoAvailable = true)
    (hT : pyTruthyStrOpt env.MP_ACCESS_TOKEN = true)
    (hres : createOracle (buildPaymentData env req) = Except.ok (PyVal.dict rs))
    (hpr : (lookupStr rs "response").getD (PyVal.dict []) = PyVal.dict pr)
    (hid : (lookupStr pr "id").getD (PyVal.str "") = idv)
    (hpoi : (lookupStr pr "point_of_interaction").getD (PyVal.dict []) = PyVal.dict poi)
    (htxi : (lookupStr poi "transaction_data").getD (PyVal.dict []) = PyVal.dict txi)
    (hqr : (lookupStr txi "qr_code").getD PyVal.none = qr)
    (hpid : pyStr idv ≠ "")
    (hq : pyTruthy qr = true) :
    create_payment env createOracle true store req =
      (Except.ok (PyVal.dict
          [("payment_id", PyVal.str (pyStr idv)),
           ("status", PyVal.str "pending"),
           ("qr_code_copy_paste", qr)]),
       kvSet store (pyStr idv) (PyVal.str "pending")) ∧
    get_payment_status (kvSet store (pyStr idv) (PyVal.str "pending")) (pyStr idv) =
      Except.ok (PyVal.dict [("payment_id", PyVal.str (pyStr idv)),
        ("status", PyVal.str "pending")]) := by
  constructor
  · unfold create_payment
    simp [hA, hT, hres, hpr, pyGet, hid, hpoi, htxi, hqr, hpid, hq]
  · simp [get_payment_status, lookupStr_kvSet_self, decodeBytes]

/-- Witness for C1 at a concrete provider result (id 123, a QR payload). -/
theorem create_payment_roundtrip_witness :
    create_payment envFull createOracleGood true [] reqSample =
      (Except.ok (PyVal.dict
          [("payment_id", PyVal.str (pyStr (PyVal.int 123))),
           ("status", PyVal.str "pending"),
           ("qr_code_copy_paste", PyVal.str "qr-data")]),
       kvSet [] (pyStr (PyVal.int 123)) (PyVal.str "pending")) ∧
    get_payment_status (kvSet [] (pyStr (PyVal.int 123)) (PyVal.str "pending"))
        (pyStr (PyVal.int 123)) =
      Except.ok (PyVal.dict [("payment_id", PyVal.str (pyStr (PyVal.int 123))),
        ("status", PyVal.str "pending")]) :=
  create_payment_roundtrip envFull createOracleGood [] reqSample
    [("response", PyVal.dict
      [("id", PyVal.int 123),
       ("point_of_interaction",
        PyVal.dict [("transaction_data", PyVal.dict [("qr_code", PyVal.str "qr-data")])])])]
    [("id", PyVal.int 123),
     ("point_of_interaction",
      PyVal.dict [("transaction_data", PyVal.dict [("qr_code", PyVal.str "qr-data")])])]
    [("transaction_data", PyVal.dict [("qr_code", PyVal.str "qr-data")])]
    [("qr_code", PyVal.str "qr-data")]
    (PyVal.int 123) (PyVal.str "qr-data")
    rfl rfl rfl rfl rfl rfl rfl rfl (by decide) rfl

/-- Claim C8: same successful provider result, but the store write raises
(`kvSetOk = false`): the success response is still returned and the store is
left as it was — the store failure never fails the request. -/
theorem create_payment_store_failure (env : Env) (createOracle : PyVal → Except String PyVal)
    (store : Store) (req : PaymentRequest)
    (rs pr poi txi : List (String × PyVal)) (idv qr : PyVal)
    (hA : env.mercadopagoAvailable = true)
    (hT : pyTruthyStrOpt env.MP_ACCESS_TOKEN = true)
    (hres : createOracle (buildPaymentData env req) = Except.ok (PyVal.dict rs))
    (hpr : (lookupStr rs "response").getD (PyVal.dict []) = PyVal.dict pr)
    (hid : (lookupStr pr "id").getD (PyVal.str "") = idv)
    (hpoi : (lookupStr pr "point_of_interaction").getD (PyVal.dict []) = PyVal.dict poi)
    (htxi : (lookupStr poi "transaction_data").getD (PyVal.dict []) = PyVal.dict txi)
    (hqr : (lookupStr txi "qr_code").getD PyVal.none = qr)
    (hpid : pyStr idv ≠ "")
    (hq : pyTruthy qr = true) :
    create_payment env createOracle false store req =
      (Except.ok (PyVal.dict
          [("payment_id", PyVal.str (pyStr idv)),
           ("status", PyVal.str "pending"),
           ("qr_code_copy_paste", qr)]),
       store) := by
  unfold create_payment
  simp [hA, hT, hres, hpr, pyGet, hid, hpoi, htxi, hqr, hpid, hq]

/-- Witness for C8 at the same concrete provider result, with a failing
store. -/
theorem create_payment_store_failure_witness :
    create_payment envFull createOracleGood false [("old", PyVal.str "approved")] reqSample =
      (Except.ok (PyVal.dict
          [("payment_id", PyVal.str (pyStr (PyVal.int 123))),
           ("status", PyVal.str "pending"),
           ("qr_code_copy_paste", PyVal.str "qr-data")]),
       [("old", PyVal.str "approved")]) :=
  create_payment_store_failure envFull createOracleGood [("old", PyVal.str "approved")] reqSample
    [("response", PyVal.dict
      [("id", PyVal.int 123),
       ("point_of_interaction",
        PyVal.dict [("transaction_data", PyVal.dict [("qr_code", PyVal.str "qr-data")])])])]
    [("id", PyVal.int 123),
     ("point_of_interaction",
      PyVal.dict [("transaction_data", PyVal.dict [("qr_code", PyVal.str "qr-data")])])]
    [("transaction_data", PyVal.dict [("qr_code", PyVal.str "qr-data")])]
    [("qr_code", PyVal.str "qr-data")]
    (PyVal.int 123) (PyVal.str "qr-data")
    rfl rfl rfl rfl rfl rfl rfl rfl (by decide) rfl

/-- Claim C2: for a webhook body with `type == "payment"` and a non-empty
`data.id`, when the SDK and token are configured and the fresh provider query
succeeds with a dict response, the value written to the store and returned as
`new_status` is exactly that response's `status` field; and the handler's
entire outcome depends on the body only through its `type` and `data.id`
fields, so two bodies differing only in embedded status fields produce the
same stored status and the same response. -/
theorem mercadopago_webhook_fresh_status :
    (∀ (env : Env) (getOracle : String → Except String PyVal) (kvSetOk : Bool)
       (store : Store) (fs ds rs rf : List (String × PyVal)) (idv st : PyVal),
      lookupStr fs "type" = some (PyVal.str "payment") →
      (lookupStr fs "data").getD (PyVal.dict []) = PyVal.dict ds →
      (lookupStr ds "id").getD (PyVal.str "") = idv →
      pyStr idv ≠ "" →
      (env.mercadopagoAvailable && pyTruthyStrOpt env.MP_ACCESS_TOKEN) = true →
      getOracle (pyStr idv) = Except.ok (PyVal.dict rs) →
      (lookupStr rs "response").getD (PyVal.dict []) = PyVal.dict rf →
      (lookupStr rf "status").getD PyVal.none = st →
      mercadopago_webhook env getOracle kvSetOk store (Except.ok (PyVal.dict fs)) =
        (Except.ok (PyVal.dict [("status", PyVal.str "ok"),
            ("payment_id", PyVal.str (pyStr idv)), ("new_status", st)]),
         if kvSetOk then kvSet store (pyStr idv) st else store)) ∧
    (∀ (env : Env) (getOracle : String → Except String PyVal) (kvSetOk : Bool)
       (store : Store) (f1 f2 : List (String × PyVal)),
      (lookupStr f1 "type").getD PyVal.none = (lookupStr f2 "type").getD PyVal.none →
      pyGet ((lookupStr f1 "data").getD (PyVal.dict [])) "id" (PyVal.str "") =
        pyGet ((lookupStr f2 "data").getD (PyVal.dict [])) "id" (PyVal.str "") →
      mercadopago_webhook env getOracle kvSetOk store (Except.ok (PyVal.dict f1)) =
        mercadopago_webhook env getOracle kvSetOk store (Except.ok (PyVal.dict f2))) := by
  constructor
  · intro env getOracle kvSetOk store fs ds rs rf idv st ht hds hid hpid hc ho hresp hst
    unfold mercadopago_webhook
    simp [pyGet, ht, hds, hid, hpid, webhookFetchStatus, hc, ho, hresp, hst, pyEqStr]
  · intro env getOracle kvSetOk store f1 f2 ht hid
    have hg : ∀ (fs : List (String × PyVal)) (key : String) (d : PyVal),
        pyGet (PyVal.dict fs) key d = Except.ok ((lookupStr fs key).getD d) :=
      fun _ _ _ => rfl
    unfold mercadopago_webhook
    simp only [hg]
    rw [ht, hid]

/-- Witness for C2: a configured environment, a provider answering
`"approved"`, and two concrete bodies that differ only in an embedded
`status` field. -/
theorem mercadopago_webhook_fresh_status_witness :
    mercadopago_webhook envFull getOracleApproved true []
        (Except.ok (PyVal.dict [("type", PyVal.str "payment"),
          ("data", PyVal.dict [("id", PyVal.int 9), ("status", PyVal.str "spoofed")])])) =
      (Except.ok (PyVal.dict [("status", PyVal.str "ok"),
          ("payment_id", PyVal.str (pyStr (PyVal.int 9))),
          ("new_status", PyVal.str "approved")]),
       if true then kvSet [] (pyStr (PyVal.int 9)) (PyVal.str "approved") else []) ∧
    mercadopago_webhook envFull getOracleApproved true []
        (Except.ok (PyVal.dict [("type", PyVal.str "payment"),
          ("data", PyVal.dict [("id", PyVal.int 9), ("status", PyVal.str "spoofed")])])) =
      mercadopago_webhook envFull getOracleApproved true []
        (Except.ok (PyVal.dict [("type", PyVal.str "payment"),
          ("data", PyVal.dict [("id", PyVal.int 9), ("status", PyVal.str "cancelled")])])) :=
  ⟨mercadopago_webhook_fresh_status.1 envFull getOracleApproved true []
      [("type", PyVal.str "payment"),
       ("data", PyVal.dict [("id", PyVal.int 9), ("status", PyVal.str "spoofed")])]
      [("id", PyVal.int 9), ("status", PyVal.str "spoofed")]
      [("response", PyVal.dict [("status", PyVal.str "approved")])]
      [("status", PyVal.str "approved")]
      (PyVal.int 9) (PyVal.str "approved")
      rfl rfl rfl (by decide) rfl rfl rfl rfl,
   mercadopago_webhook_fresh_status.2 envFull getOracleApproved true []
      [("type", PyVal.str "payment"),
       ("data", PyVal.dict [("id", PyVal.int 9), ("status", PyVal.str "spoofed")])]
      [("type", PyVal.str "payment"),
       ("data", PyVal.dict [("id", PyVal.int 9), ("status", PyVal.str "cancelled")])]
      rfl rfl⟩

/-- Counterexample to claim C4: a body that parses as JSON but is not an
object (here the JSON array `[]`) makes `data.get("type")` raise an
`AttributeError` that escapes the handler, so the framework answers 500, not
200. -/
theorem mercadopago_webhook_nondict_crash :
    (mercadopago_webhook envFull getOracleApproved true [] (Except.ok (PyVal.list []))).1 =
      Except.error "AttributeError: list object has no attribute get" := rfl

/-- Claim C4 (amended): the handler answers HTTP 200 with an `invalid_json`
body for every unparseable body, and answers HTTP 200 for every body parsing
to a JSON object whose `data` field is an object (or whose type is not
`"payment"`); but a body parsing to a non-object value — and a payment-type
object with a non-object `data` field — raises an uncaught exception,
surfacing as a framework 500. -/
theorem mercadopago_webhook_soft_fail :
    (∀ (env : Env) (getOracle : String → Except String PyVal) (kvSetOk : Bool)
       (store : Store) (e : String),
      mercadopago_webhook env getOracle kvSetOk store (Except.error e) =
        (Except.ok (PyVal.dict [("status", PyVal.str "invalid_json"),
            ("detail", PyVal.str e)]), store)) ∧
    (∀ (env : Env) (getOracle : String → Except String PyVal) (kvSetOk : Bool)
       (store : Store) (fs : List (String × PyVal)),
      (pyEqStr ((lookupStr fs "type").getD PyVal.none) "payment" = false ∨
        (∃ ds, (lookupStr fs "data").getD (PyVal.dict []) = PyVal.dict ds)) →
      ∃ resp store2,
        mercadopago_webhook env getOracle kvSetOk store (Except.ok (PyVal.dict fs)) =
          (Except.ok resp, store2)) := by
  constructor
  · intro env getOracle kvSetOk store e
    rfl
  · intro env getOracle kvSetOk store fs hcond
    unfold mercadopago_webhook
    by_cases hp : pyEqStr ((lookupStr fs "type").getD PyVal.none) "payment" = true
    · rcases hcond with hf | ⟨ds, hds⟩
      · rw [hp] at hf; cases hf
      · simp only [pyGet, hp, hds, if_true]
        split <;> exact ⟨_, _, rfl⟩
    · simp only [pyGet, Bool.not_eq_true] at hp
      simp only [pyGet, hp]
      exact ⟨_, _, rfl⟩

/-- Witness for C4 (amended): an unparseable body, and a well-shaped object
body. -/
theorem mercadopago_webhook_soft_fail_witness :
    mercadopago_webhook envFull getOracleApproved true [] (Except.error "Expecting value") =
      (Except.ok (PyVal.dict [("status", PyVal.str "invalid_json"),
          ("detail", PyVal.str "Expecting value")]), []) ∧
    ∃ resp store2,
      mercadopago_webhook envFull getOracleApproved true []
          (Except.ok (PyVal.dict [("type", PyVal.str "payment"),
            ("data", PyVal.dict [("id", PyVal.int 3)])])) =
        (Except.ok resp, store2) :=
  ⟨mercadopago_webhook_soft_fail.1 envFull getOracleApproved true [] "Expecting value",
   mercadopago_webhook_soft_fail.2 envFull getOracleApproved true []
      [("type", PyVal.str "payment"), ("data", PyVal.dict [("id", PyVal.int 3)])]
      (Or.inr ⟨[("id", PyVal.int 3)], rfl⟩)⟩

/-- Counterexample to claim C9: with the access token absent, a payment
webhook with a non-empty id does not answer a diagnostic failure — it answers
HTTP 200 with top-level `status: "ok"` (a success acknowledgement) and the
sentinel `new_status: "unknown"`. -/
theorem webhook_no_token_reports_ok_cex :
    mercadopago_webhook envNoToken getOracleApproved true []
        (Except.ok (bodyPayment (PyVal.int 1) [])) =
      (Except.ok (PyVal.dict [("status", PyVal.str "ok"),
          ("payment_id", PyVal.str "1"), ("new_status", PyVal.str "unknown")]),
       [("1", PyVal.str "unknown")]) := rfl

/-- Claim C9 (amended): with the SDK or token absent, a payment webhook with a
non-empty id does not crash: it answers HTTP 200 with `status: "ok"` and the
sentinel `new_status: "unknown"`, which is also written to the store — a soft
success acknowledgement, not a failure response. -/
theorem mercadopago_webhook_no_token (env : Env) (getOracle : String → Except String PyVal)
    (kvSetOk : Bool) (store : Store) (fs ds : List (String × PyVal)) (idv : PyVal)
    (ht : lookupStr fs "type" = some (PyVal.str "payment"))
    (hds : (lookupStr fs "data").getD (PyVal.dict []) = PyVal.dict ds)
    (hid : (lookupStr ds "id").getD (PyVal.str "") = idv)
    (hpid : pyStr idv ≠ "")
    (hc : (env.mercadopagoAvailable && pyTruthyStrOpt env.MP_ACCESS_TOKEN) = false) :
    mercadopago_webhook env getOracle kvSetOk store (Except.ok (PyVal.dict fs)) =
      (Except.ok (PyVal.dict [("status", PyVal.str "ok"),
          ("payment_id", PyVal.str (pyStr idv)), ("new_status", PyVal.str "unknown")]),
       if kvSetOk then kvSet store (pyStr idv) (PyVal.str "unknown") else store) := by
  unfold mercadopago_webhook
  simp [pyGet, ht, hds, hid, hpid, webhookFetchStatus, hc, pyEqStr]

/-- Witness for C9 (amended) at a concrete tokenless environment. -/
theorem mercadopago_webhook_no_token_witness :
    mercadopago_webhook envNoToken getOracleApproved false [("1", PyVal.str "pending")]
        (Except.ok (bodyPayment (PyVal.int 1) [])) =
      (Except.ok (PyVal.dict [("status", PyVal.str "ok"),
          ("payment_id", PyVal.str (pyStr (PyVal.int 1))),
          ("new_status", PyVal.str "unknown")]),
       if false then kvSet [("1", PyVal.str "pending")] (pyStr (PyVal.int 1)) (PyVal.str "unknown")
       else [("1", PyVal.str "pending")]) :=
  mercadopago_webhook_no_token envNoToken getOracleApproved false [("1", PyVal.str "pending")]
    [("type", PyVal.str "payment"), ("data", PyVal.dict [("id", PyVal.int 1)])]
    [("id", PyVal.int 1)] (PyVal.int 1) rfl rfl rfl (by decide) rfl
